import Mathlib

/-!
Shallow embedding of `notebooks/analysis.py`, a single-pass EDA report
generator over a tabular healthcare dataset, together with proofs of the
behavioural properties claimed for it.

Modelling conventions:
* A pandas `DataFrame` becomes a list of `Row`s plus one Boolean flag per
  column of interest recording whether that column is present.  A cell that
  is `NaN`/`NaT` in pandas is `none` here.
* Timestamps are epoch day numbers (`Int`); `pd.to_datetime` parse failures
  are `none`.  Calendar months are recovered with an exact civil-calendar
  conversion (`civilMonth`).
* Monetary values and percentages are exact rationals; `round(n)` is
  round-half-to-even (numpy/pandas semantics), embedded as `rhe`.
* Accessing an absent column raises `KeyError` in pandas; analyzers are
  therefore `Except String`-valued.  Console/figure side effects are traced
  as `AEff` values; a crashed analyzer's partial output is not traced (no
  stated property inspects output of a crashed run).
* `sys.exit(1)` and falling off the end of `main` become the `Outcome` type.
-/

/-- One record of the dataset.  Fields mirror the CSV columns used by the
script; `none` is a missing value. -/
structure Row where
  patientId : Option String
  department : Option String
  admissionDate : Option Int
  dischargeDate : Option Int
  lengthOfStay : Option Int
  cost : Option Rat
  readmission : Option String
  deriving DecidableEq

/-- The in-memory table: per-column presence flags plus the rows.  When a
`has*` flag is `false` the corresponding field of every row is unobservable
(the embedded operations consult the flag before reading the field). -/
structure DataFrame where
  hasPatientId : Bool
  hasDepartment : Bool
  hasAdmissionDate : Bool
  hasDischargeDate : Bool
  hasLengthOfStay : Bool
  hasCost : Bool
  hasReadmission : Bool
  rows : List Row
  deriving DecidableEq

/-- Console and filesystem effects of one analyzer. -/
inductive AEff where
  | sectionH (title : String)
  | subH (title : String)
  | outText (s : String)
  | chart (filename : String)
  deriving DecidableEq

/-- Process-level result: `exited c msgs` is a run that terminated with exit
status `c` after printing `msgs` (diagnostics only; routine report text is
not collected), `crashed e` is an uncaught exception. -/
inductive Outcome where
  | exited (code : Nat) (msgs : List String)
  | crashed (msg : String)
  deriving DecidableEq

/-- Program-startup / loader effects (module lines 22-24 and `load_data`). -/
inductive PEff where
  | mkdirFigs
  | checkFile (path : String)
  deriving DecidableEq

/-! ### Rounding (numpy round-half-to-even) -/

/-- Floor of a rational, written out on the numerator and denominator (`Int`
division is Euclidean, hence floor division for a positive denominator). -/
def rfloor (x : Rat) : Int := x.num / (x.den : Int)

/-- Round a rational to the nearest integer, ties to even — the rounding
used by pandas' `round`. -/
def rhe (x : Rat) : Int :=
  if x - rfloor x < 1/2 then rfloor x
  else if x - rfloor x > 1/2 then rfloor x + 1
  else if rfloor x % 2 = 0 then rfloor x else rfloor x + 1

/-- Embeds `.round(1)`. -/
def round1 (x : Rat) : Rat := (rhe (10 * x) : Int) / 10

/-- Embeds `.round(2)`. -/
def round2 (x : Rat) : Rat := (rhe (100 * x) : Int) / 100

/-! ### Calendar months

`dt.to_period("M")` buckets a timestamp by its civil-calendar (year, month).
The conversion from an epoch day number is the standard exact algorithm on
integers (all divisions below have non-negative operands). -/

/-- Civil (year, month) of an epoch day number (1970-01-01 is day 0). -/
def civilMonth (t : Int) : Int × Int :=
  let z := t + 719468
  let era := z.fdiv 146097
  let doe := z - era * 146097
  let yoe := (doe - doe / 1460 + doe / 36524 - doe / 146096) / 365
  let y := yoe + era * 400
  let doy := doe - (365 * yoe + yoe / 4 - yoe / 100)
  let mp := (5 * doy + 2) / 153
  let m := if mp < 10 then mp + 3 else mp - 9
  (if m ≤ 2 then y + 1 else y, m)

/-! ### Generic list plumbing -/

/-- Distinct elements of a list, keeping first occurrences. -/
def dedupFirst {α : Type} [DecidableEq α] : List α → List α
  | [] => []
  | x :: xs => x :: (dedupFirst xs).filter (fun y => y ≠ x)

theorem mem_of_mem_dedupFirst {α : Type} [DecidableEq α] :
    ∀ {l : List α} {x : α}, x ∈ dedupFirst l → x ∈ l := by
  intro l
  induction l with
  | nil => intro x h; simp [dedupFirst] at h
  | cons a as ih =>
    intro x h
    simp only [dedupFirst, List.mem_cons] at h
    rcases h with h | h
    · simp [h]
    · exact List.mem_cons_of_mem a (ih (List.mem_of_mem_filter h))

/-! ### Loader (`load_data`, lines 48-58)

The filesystem is abstracted to: does the file exist, and, if so, which
`DataFrame` results from `pd.read_csv` plus the forgiving
`pd.to_datetime(..., errors="coerce")` parse (already reflected in the
`Option Int` date fields).  `path.resolve()` is modelled as the path
itself. -/

def oopsMsg (path : String) : String :=
  "Oops — I can't find the dataset at: " ++ path

def folderMsg : String :=
  "Make sure hospital_data.csv is in the /data folder."

def load_data (fileExists : Bool) (path : String) (df : DataFrame) :
    Except (Nat × List String) DataFrame :=
  if fileExists then .ok df else .error (1, [oopsMsg path, folderMsg])

/-! ### Derived length of stay (`main`, lines 162-166) -/

/-- Candidate length of stay of one row: `(Discharge_Date - Admission_Date).dt.days`.
Missing if either date failed to parse. -/
def calcLos (r : Row) : Option Int :=
  match r.dischargeDate, r.admissionDate with
  | some d, some a => some (d - a)
  | _, _ => none

/-- Embeds `.clip(lower=0)`: `NaN` stays `NaN`. -/
def clip0 (o : Option Int) : Option Int := o.map (fun x => max x 0)

/-- Lines 162-166 of `main`: if both date columns exist and `Length_of_Stay`
is absent or has a missing value, replace the whole column by the clipped
candidate; otherwise leave the frame untouched. -/
def deriveLOS (df : DataFrame) : DataFrame :=
  if df.hasAdmissionDate && df.hasDischargeDate then
    if !df.hasLengthOfStay || df.rows.any (fun r => r.lengthOfStay.isNone) then
      { df with
        hasLengthOfStay := true
        rows := df.rows.map (fun r => { r with lengthOfStay := clip0 (calcLos r) }) }
    else df
  else df

/-! ### Analyzers

Each analyzer returns the list of its effects, or the `KeyError` pandas
raises on its first access to an absent column. -/

/-- Lines 61-68: prints shape, column list and head; cannot fail. -/
def basic_overview (_df : DataFrame) : Except String (List AEff) :=
  .ok [.sectionH "Dataset Overview"]

/-- Lines 70-76: `df[["Length_of_Stay", "Cost"]]` raises if either column is
absent; otherwise describe/missing-count output. -/
def summary_stats (df : DataFrame) : Except String (List AEff) :=
  if df.hasLengthOfStay then
    if df.hasCost then
      .ok [.sectionH "Summary Statistics", .subH "Missing Values (count)"]
    else .error "KeyError: Cost"
  else .error "KeyError: Length_of_Stay"

/-- Lines 78-85: `df["Department"].value_counts()` plus a bar chart. -/
def admissions_by_department (df : DataFrame) : Except String (List AEff) :=
  if df.hasDepartment then
    .ok [.sectionH "Admissions by Department", .chart "admissions_by_department.png"]
  else .error "KeyError: Department"

/-! #### Average cost per department (lines 87-94) -/

/-- Distinct non-missing departments, i.e. the index of any
`df.groupby("Department")` result (key order is immaterial to every stated
property, so first-appearance order is used). -/
def deptsAll (df : DataFrame) : List String :=
  dedupFirst (df.rows.filterMap (fun r => r.department))

/-- Mean of the non-missing `Cost` values of one department; `none` embeds
the `NaN` mean of a department with no observed cost. -/
def deptMeanCost (df : DataFrame) (d : String) : Option Rat :=
  let cs := df.rows.filterMap
    (fun r => if r.department = some d then r.cost else none)
  if cs.isEmpty then none else some (cs.sum / (cs.length : Rat))

/-- Comparator embedding `sort_values(ascending=False)`: `NaN` sorts last,
i.e. below every number. -/
def optLe : Option Rat → Option Rat → Bool
  | none, _ => true
  | some _, none => false
  | some a, some b => decide (a ≤ b)

theorem optLe_total (a b : Option Rat) : optLe a b = true ∨ optLe b a = true := by
  cases a <;> cases b <;> simp [optLe]
  exact le_total _ _

theorem optLe_trans {a b c : Option Rat} (h1 : optLe a b = true)
    (h2 : optLe b c = true) : optLe a c = true := by
  cases a <;> cases b <;> cases c <;> simp [optLe] at * <;> exact le_trans h1 h2

/-- Descending-by-mean order on labelled means. -/
def costDesc (a b : String × Option Rat) : Prop := optLe b.2 a.2 = true

instance : DecidableRel costDesc := fun a b => by
  unfold costDesc; infer_instance

instance : IsTotal (String × Option Rat) costDesc :=
  ⟨fun a b => (optLe_total b.2 a.2).imp id id⟩

instance : IsTrans (String × Option Rat) costDesc :=
  ⟨fun _ _ _ hab hbc => optLe_trans hbc hab⟩

/-- Unsorted per-department means, the `groupby("Department")["Cost"].mean()`
series. -/
def avgCostRaw (df : DataFrame) : List (String × Option Rat) :=
  (deptsAll df).map (fun d => (d, deptMeanCost df d))

/-- After `sort_values(ascending=False)` (before rounding, as in line 89). -/
def avgCostSorted (df : DataFrame) : List (String × Option Rat) :=
  List.insertionSort costDesc (avgCostRaw df)

/-- The printed table: sorted means rounded to two decimals. -/
def avgCostTable (df : DataFrame) : List (String × Option Rat) :=
  (avgCostSorted df).map (fun p => (p.1, p.2.map round2))

/-- Lines 87-94 as an analyzer. -/
def avg_cost_per_department (df : DataFrame) : Except String (List AEff) :=
  if df.hasDepartment then
    if df.hasCost then
      .ok [.sectionH "Average Cost per Department", .chart "avg_cost_by_department.png"]
    else .error "KeyError: Cost"
  else .error "KeyError: Department"

/-! #### Readmission rates (lines 96-122) -/

/-- Rows counted for department `d` and category `c` by
`groupby("Department")["Readmission"].value_counts()`. -/
def nCat (df : DataFrame) (d c : String) : Nat :=
  df.rows.countP (fun r => decide (r.department = some d) && decide (r.readmission = some c))

/-- Non-missing readmission entries of department `d` (the normalizer of
`value_counts(normalize=True)` within that group). -/
def nTot (df : DataFrame) (d : String) : Nat :=
  df.rows.countP (fun r => decide (r.department = some d) && r.readmission.isSome)

/-- Departments appearing in the pivot index: those with at least one
non-missing readmission value (`value_counts` drops `NaN`). -/
def readmitDepts (df : DataFrame) : List String :=
  dedupFirst (df.rows.filterMap
    (fun r => if r.readmission.isSome then r.department else none))

/-- Readmission categories appearing as pivot columns: distinct values among
rows with a non-missing department. -/
def pivotColumns (df : DataFrame) : List String :=
  dedupFirst (df.rows.filterMap
    (fun r => if r.department.isSome then r.readmission else none))

/-- One pivot cell after `fillna(0).round(1)`: the percentage of category
`c` within department `d`.  When the `(d, c)` pair is absent the cell was
`NaN`, filled with `0`, which agrees with the formula since `nCat = 0`. -/
def cellPct (df : DataFrame) (d c : String) : Rat :=
  round1 (100 * (nCat df d c : Rat) / (nTot df d : Rat))

/-- Line 112-114: append a missing "No" column. -/
def withNo (cols : List String) : List String :=
  if "No" ∈ cols then cols else cols ++ ["No"]

/-- Line 112-114: append a missing "Yes" column. -/
def withYes (cols : List String) : List String :=
  if "Yes" ∈ cols then cols else cols ++ ["Yes"]

/-- Column selection `by_dept[["No", "Yes"]]` (line 115): raises `KeyError`
if a requested column is absent. -/
def selectCols (cols want : List String) : Except String (List String) :=
  if ∀ c ∈ want, c ∈ cols then .ok want else .error "KeyError: column selection"

/-- Lines 103-116: the per-department percentage table, as its column list
and its rows (department, cell values aligned with the columns). -/
def readmitTable (df : DataFrame) :
    Except String (List String × List (String × List Rat)) :=
  match selectCols (withYes (withNo (pivotColumns df))) ["No", "Yes"] with
  | .error e => .error e
  | .ok sel =>
      .ok (sel, (readmitDepts df).map (fun d => (d, sel.map (fun c => cellPct df d c))))

/-- Lines 96-122 as an analyzer: `df["Readmission"]` (line 98) then the
`groupby("Department")` pipeline (line 104). -/
def readmission_rates (df : DataFrame) : Except String (List AEff) :=
  if df.hasReadmission then
    if df.hasDepartment then
      .ok [.sectionH "Readmission Rates", .subH "By Department:",
           .chart "readmission_yes_by_department.png"]
    else .error "KeyError: Department"
  else .error "KeyError: Readmission"

/-- Lines 124-136: correlation matrix and scatter plot; first access is
`df[["Length_of_Stay", "Cost"]]`. -/
def los_vs_cost (df : DataFrame) : Except String (List AEff) :=
  if df.hasLengthOfStay then
    if df.hasCost then
      .ok [.sectionH "Length of Stay vs Cost", .chart "length_of_stay_vs_cost.png"]
    else .error "KeyError: Cost"
  else .error "KeyError: Length_of_Stay"

/-! #### Monthly admissions (lines 138-155) -/

/-- The guard of line 139: skip when the column is absent or every value is
missing (`isna().all()` is vacuously true on an empty frame). -/
def monthlyGuard (df : DataFrame) : Bool :=
  !df.hasAdmissionDate || df.rows.all (fun r => r.admissionDate.isNone)

/-- The `YearMonth` value assigned to one row (line 143); `NaT` propagates. -/
def monthKeyOf (r : Row) : Option (Int × Int) :=
  r.admissionDate.map civilMonth

/-- Key/value pairs fed to `groupby("YearMonth")["Patient_ID"]`. -/
def monthlyPairs (df : DataFrame) : List (Option (Int × Int) × Option String) :=
  df.rows.map (fun r => (monthKeyOf r, r.patientId))

/-- Generic `groupby(key)[val].count()`: rows with a missing key are dropped
from the grouping, and within each group only non-missing values are
counted. -/
def groupByCount {K V : Type} [DecidableEq K]
    (pairs : List (Option K × Option V)) : List (K × Nat) :=
  (dedupFirst (pairs.filterMap (fun p => p.1))).map
    (fun k => (k, pairs.countP (fun p => decide (p.1 = some k) && p.2.isSome)))

/-- Lines 142-146: admissions counted per calendar month. -/
def monthlySeries (df : DataFrame) : List ((Int × Int) × Nat) :=
  groupByCount (monthlyPairs df)

/-- Lines 138-155 as an analyzer: an empty effect list is the silent skip of
line 139-140 (no section header, no chart file). -/
def monthly_admissions (df : DataFrame) : Except String (List AEff) :=
  if monthlyGuard df then .ok []
  else if df.hasPatientId then
    .ok [.sectionH "Monthly Admissions Trend", .chart "monthly_admissions.png"]
  else .error "KeyError: Patient_ID"

/-! ### Main (lines 157-180) -/

/-- Lines 168-174: the seven analyzers in program order over the derived
frame; the first uncaught `KeyError` aborts the run. -/
def run_analyzers (df : DataFrame) : Except String (List AEff) := do
  let e1 ← basic_overview df
  let e2 ← summary_stats df
  let e3 ← admissions_by_department df
  let e4 ← avg_cost_per_department df
  let e5 ← readmission_rates df
  let e6 ← los_vs_cost df
  let e7 ← monthly_admissions df
  pure (e1 ++ e2 ++ e3 ++ e4 ++ e5 ++ e6 ++ e7)

/-- The whole of `main`: load (exit 1 on a missing file), derive the length
of stay, run the analyzers (an uncaught exception crashes the process),
otherwise fall off the end with exit status 0. -/
def main_run (fileExists : Bool) (path : String) (dfIn : DataFrame) : Outcome :=
  match load_data fileExists path dfIn with
  | .error (c, msgs) => .exited c msgs
  | .ok df0 =>
      match run_analyzers (deriveLOS df0) with
      | .ok _ => .exited 0 []
      | .error e => .crashed e

/-- Whole-program run, including the module-level statements: the figures
directory is created (line 24) before `main` ever checks the input file
(line 49).  The first component is the startup/loader effect trace. -/
def program_run (fileExists : Bool) (path : String) (dfIn : DataFrame) :
    List PEff × Outcome :=
  ([PEff.mkdirFigs, PEff.checkFile path], main_run fileExists path dfIn)

/-! ### Rounding lemmas -/

theorem rfloor_eq_floor (x : Rat) : rfloor x = ⌊x⌋ := Rat.floor_def.symm

theorem abs_rhe_sub_le (x : Rat) : |((rhe x : Int) : Rat) - x| ≤ 1/2 := by
  have h0 : ((⌊x⌋ : Int) : Rat) ≤ x := Int.floor_le x
  have h1 : x < ⌊x⌋ + 1 := Int.lt_floor_add_one x
  unfold rhe
  rw [rfloor_eq_floor]
  split_ifs with ha hb hc <;> rw [abs_le] <;> push_cast at * <;>
    constructor <;> linarith

theorem abs_round1_sub_le (x : Rat) : |round1 x - x| ≤ 1/20 := by
  have h := abs_rhe_sub_le (10 * x)
  unfold round1
  rw [abs_le] at h ⊢
  constructor <;> [linarith; linarith]

theorem round1_zero : round1 0 = 0 := by
  norm_num [round1, rhe, rfloor]

/-! ### Claims about the derivation step -/

/-- Key helper: with a present, fully populated `Length_of_Stay` column the
derivation step is the identity (both guarded branches return the frame). -/
theorem deriveLOS_unchanged_of_full (df : DataFrame)
    (hL : df.hasLengthOfStay = true)
    (hAll : df.rows.all (fun r => r.lengthOfStay.isSome) = true) :
    deriveLOS df = df := by
  have hAny : (df.rows.any fun r => r.lengthOfStay.isNone) = false := by
    rw [List.any_eq_false]
    intro r hr
    have hs := List.all_eq_true.mp hAll r hr
    cases hx : r.lengthOfStay with
    | none => rw [hx] at hs; simp at hs
    | some v => simp [hx]
  unfold deriveLOS
  rw [hL, hAny]
  split_ifs with hA hB
  · simp at hB
  · rfl
  · rfl

/-- C1: with both date columns present, a missing-or-absent `Length_of_Stay`
column is replaced row-wise by the whole-day discharge−admission difference
clamped below at zero (missing where a date did not parse), and a fully
populated `Length_of_Stay` column leaves the frame unchanged. -/
theorem claim_C1 (df : DataFrame)
    (h1 : df.hasAdmissionDate = true) (h2 : df.hasDischargeDate = true) :
    ((df.hasLengthOfStay = false ∨ df.rows.any (fun r => r.lengthOfStay.isNone) = true) →
      (deriveLOS df).rows.map (fun r => r.lengthOfStay)
        = df.rows.map (fun r => clip0 (calcLos r)))
    ∧ (df.hasLengthOfStay = true →
        df.rows.all (fun r => r.lengthOfStay.isSome) = true →
      deriveLOS df = df) := by
  constructor
  · intro h
    have hc : (!df.hasLengthOfStay || df.rows.any fun r => r.lengthOfStay.isNone) = true := by
      rcases h with h | h
      · simp [h]
      · simp [h]
    unfold deriveLOS
    rw [h1, h2]
    simp only [Bool.and_self, if_true, hc, List.map_map]
    rfl
  · intro hL hAll
    exact deriveLOS_unchanged_of_full df hL hAll

/-- Witness dataset for C1: both date columns present, `Length_of_Stay`
present but with a hole in the first row. -/
def exC1 : DataFrame :=
  ⟨false, false, true, true, true, false, false,
   [⟨none, none, some 0, some 5, none, none, none⟩,
    ⟨none, none, none, some 3, some 2, none, none⟩]⟩

theorem claim_C1_witness :
    (deriveLOS exC1).rows.map (fun r => r.lengthOfStay)
      = exC1.rows.map (fun r => clip0 (calcLos r)) :=
  (claim_C1 exC1 rfl rfl).1 (Or.inr (by decide))

/-- Counterexample dataset for C2, non-negativity half: `Length_of_Stay` is
fully populated (with `-5`), so the derivation leaves it untouched even
though both dates of the row parse. -/
def exC2a : DataFrame :=
  ⟨false, false, true, true, true, false, false,
   [⟨none, none, some 0, some 3, some (-5), none, none⟩]⟩

/-- Counterexample dataset for C2, retention half: the first row's hole
triggers the column replacement, which overwrites the second row's existing
value `5` with a missing value (its admission date did not parse). -/
def exC2b : DataFrame :=
  ⟨false, false, true, true, true, false, false,
   [⟨none, none, some 0, some 3, none, none, none⟩,
    ⟨none, none, none, some 0, some 5, none, none⟩]⟩

/-- C2 is false on the code in both halves: after cleaning, `exC2a` keeps a
negative `Length_of_Stay` in a row whose two dates are present and parseable,
and `exC2b`'s unparseable-date row does not retain its previous value `5`
(the column rewrite turns it into a missing value). -/
theorem claim_C2_cex :
    (∃ r ∈ (deriveLOS exC2a).rows,
      r.admissionDate.isSome = true ∧ r.dischargeDate.isSome = true
        ∧ r.lengthOfStay = some (-5))
    ∧ (deriveLOS exC2b).rows.map (fun r => r.lengthOfStay) = [some 3, none]
    ∧ exC2b.rows.map (fun r => r.lengthOfStay) = [none, some 5] := by
  refine ⟨⟨⟨none, none, some 0, some 3, some (-5), none, none⟩, by decide, by decide⟩, by decide, by decide⟩

/-- C2 as amended: when the replacement fires (both date columns present and
the column absent or holed), rows with two parsed dates get a non-negative
value and rows with an unparsed date get a missing value; in every other
case the frame — including any negative existing `Length_of_Stay` — is left
exactly as it was. -/
theorem claim_C2_amended (df : DataFrame) :
    ((df.hasAdmissionDate && df.hasDischargeDate) = false → deriveLOS df = df)
    ∧ ((df.hasAdmissionDate && df.hasDischargeDate) = true →
        ((df.hasLengthOfStay = false ∨ df.rows.any (fun r => r.lengthOfStay.isNone) = true) →
          ∀ r ∈ (deriveLOS df).rows,
            (r.admissionDate.isSome = true → r.dischargeDate.isSome = true →
              ∃ v, r.lengthOfStay = some v ∧ 0 ≤ v)
            ∧ ((r.admissionDate = none ∨ r.dischargeDate = none) →
              r.lengthOfStay = none))
        ∧ (df.hasLengthOfStay = true →
            df.rows.all (fun r => r.lengthOfStay.isSome) = true →
          deriveLOS df = df)) := by
  constructor
  · intro h
    unfold deriveLOS
    rw [h]
    simp
  · intro hd
    have h1 : df.hasAdmissionDate = true := (Bool.and_eq_true_iff.mp hd).1
    have h2 : df.hasDischargeDate = true := (Bool.and_eq_true_iff.mp hd).2
    constructor
    · intro hrepl r hr
      have hc : (!df.hasLengthOfStay || df.rows.any fun r => r.lengthOfStay.isNone) = true := by
        rcases hrepl with h | h
        · simp [h]
        · simp [h]
      unfold deriveLOS at hr
      rw [h1, h2] at hr
      simp only [Bool.and_self, if_true, hc] at hr
      rcases List.mem_map.mp hr with ⟨r0, _, rfl⟩
      constructor
      · intro ha hd'
        dsimp only at ha hd' ⊢
        rcases Option.isSome_iff_exists.mp ha with ⟨a, hae⟩
        rcases Option.isSome_iff_exists.mp hd' with ⟨d, hde⟩
        refine ⟨max (d - a) 0, ?_, le_max_right _ _⟩
        simp [calcLos, clip0, hae, hde]
      · intro hnone
        dsimp only at hnone ⊢
        rcases hnone with hnone | hnone
        · cases hx : r0.dischargeDate <;> simp [calcLos, clip0, hnone, hx]
        · simp [calcLos, clip0, hnone]
    · exact deriveLOS_unchanged_of_full df

theorem claim_C2_amended_witness :
    ∃ v, (Row.mk none none (some 0) (some 3) (some 3) none none).lengthOfStay
      = some v ∧ 0 ≤ v := by
  have h := ((claim_C2_amended exC2b).2 rfl).1 (Or.inr (by decide))
  exact (h ⟨none, none, some 0, some 3, some 3, none, none⟩ (by decide)).1 rfl rfl

/-! ### Claims about the readmission table -/

theorem countP_readmission_split (l : List Row) (d : String)
    (h : ∀ r ∈ l, r.readmission = none ∨ r.readmission = some "Yes"
      ∨ r.readmission = some "No") :
    l.countP (fun r => decide (r.department = some d) && r.readmission.isSome)
      = l.countP (fun r => decide (r.department = some d)
          && decide (r.readmission = some "No"))
        + l.countP (fun r => decide (r.department = some d)
          && decide (r.readmission = some "Yes")) := by
  induction l with
  | nil => simp
  | cons a as ih =>
    have ha := h a (by simp)
    have ih' := ih (fun r hr => h r (List.mem_cons_of_mem a hr))
    simp only [List.countP_cons]
    have hyn : ("Yes" : String) ≠ "No" := by decide
    rcases ha with ha | ha | ha <;>
      rcases hdd : decide (a.department = some d) <;>
        simp [ha, hdd, hyn, Ne.symm hyn] <;> omega

theorem nTot_pos_of_mem (df : DataFrame) (d : String)
    (hd : d ∈ readmitDepts df) : 1 ≤ nTot df d := by
  unfold readmitDepts at hd
  rcases List.mem_filterMap.mp (mem_of_mem_dedupFirst hd) with ⟨r, hr, hfr⟩
  by_cases hs : r.readmission.isSome = true
  · rw [if_pos hs] at hfr
    have hpos : 0 < nTot df d := by
      unfold nTot
      exact List.countP_pos_iff.mpr ⟨r, hr, by simp [hfr, hs]⟩
    omega
  · rw [if_neg hs] at hfr; cases hfr

/-- C4: when every readmission value is "Yes", "No" or missing, the two
rounded percentages of any department in the per-department table sum to
100 within 0.1. -/
theorem claim_C4 (df : DataFrame)
    (hvals : ∀ r ∈ df.rows, r.readmission = none ∨ r.readmission = some "Yes"
      ∨ r.readmission = some "No")
    (d : String) (hd : d ∈ readmitDepts df) :
    |cellPct df d "No" + cellPct df d "Yes" - 100| ≤ 1/10 := by
  have hsplit : nTot df d = nCat df d "No" + nCat df d "Yes" :=
    countP_readmission_split df.rows d hvals
  have hpos : 1 ≤ nTot df d := nTot_pos_of_mem df d hd
  unfold cellPct
  have hn : (0:Rat) < (nTot df d : Rat) := by exact_mod_cast hpos
  have hsum : 100 * (nCat df d "No" : Rat) / (nTot df d : Rat)
      + 100 * (nCat df d "Yes" : Rat) / (nTot df d : Rat) = 100 := by
    rw [div_add_div_same, ← mul_add]
    rw [div_eq_iff (ne_of_gt hn)]
    have : ((nCat df d "No" : Rat) + (nCat df d "Yes" : Rat)) = (nTot df d : Rat) := by
      rw [hsplit]; push_cast; ring
    rw [this]
  have e1 := abs_round1_sub_le (100 * (nCat df d "No" : Rat) / (nTot df d : Rat))
  have e2 := abs_round1_sub_le (100 * (nCat df d "Yes" : Rat) / (nTot df d : Rat))
  rw [abs_le] at e1 e2 ⊢
  constructor <;> [linarith; linarith]

/-- Witness dataset for C4 and C7: one department with one "Yes" and one
"No", and a second department with only "No". -/
def exC4 : DataFrame :=
  ⟨false, true, false, false, false, false, true,
   [⟨none, some "A", none, none, none, none, some "Yes"⟩,
    ⟨none, some "A", none, none, none, none, some "No"⟩,
    ⟨none, some "B", none, none, none, none, some "No"⟩]⟩

theorem claim_C4_witness :
    |cellPct exC4 "A" "No" + cellPct exC4 "A" "Yes" - 100| ≤ 1/10 :=
  claim_C4 exC4 (by decide) "A" (by decide)

theorem mem_withNo_self (cols : List String) : "No" ∈ withNo cols := by
  unfold withNo
  split_ifs with h
  · exact h
  · simp

theorem mem_withNo_of_mem {cols : List String} {a : String} (h : a ∈ cols) :
    a ∈ withNo cols := by
  unfold withNo
  split_ifs <;> simp [h]

theorem mem_withYes_self (cols : List String) : "Yes" ∈ withYes cols := by
  unfold withYes
  split_ifs with h
  · exact h
  · simp

theorem mem_withYes_of_mem {cols : List String} {a : String} (h : a ∈ cols) :
    a ∈ withYes cols := by
  unfold withYes
  split_ifs <;> simp [h]

/-- C7: the per-department readmission table never raises, has exactly the
columns "No" then "Yes", lists every department of the pivot with exactly
those two cells, and a category a department never exhibits is reported as
the percentage 0 rather than omitted. -/
theorem claim_C7 (df : DataFrame) :
    readmitTable df = .ok (["No", "Yes"],
      (readmitDepts df).map (fun d => (d, [cellPct df d "No", cellPct df d "Yes"])))
    ∧ (∀ d c, nCat df d c = 0 → cellPct df d c = 0) := by
  constructor
  · have hNo : "No" ∈ withYes (withNo (pivotColumns df)) :=
      mem_withYes_of_mem (mem_withNo_self _)
    have hYes : "Yes" ∈ withYes (withNo (pivotColumns df)) :=
      mem_withYes_self _
    unfold readmitTable selectCols
    rw [if_pos]
    · rfl
    · intro c hc
      simp only [List.mem_cons, List.not_mem_nil, or_false] at hc
      rcases hc with rfl | rfl
      · exact hNo
      · exact hYes
  · intro d c h
    unfold cellPct
    rw [h]
    norm_num [round1_zero]

theorem claim_C7_witness : cellPct exC4 "B" "Yes" = 0 :=
  (claim_C7 exC4).2 "B" "Yes" (by decide)

/-! ### Claims about the average-cost analyzer -/

/-- Example dataset of the spec: two ER admissions costing 100 and 300, one
ICU admission costing 500. -/
def exC8 : DataFrame :=
  ⟨false, true, false, false, false, true, false,
   [⟨none, some "ER", none, none, none, some 100, none⟩,
    ⟨none, some "ER", none, none, none, some 300, none⟩,
    ⟨none, some "ICU", none, none, none, some 500, none⟩]⟩

/-- C8: the average-cost table is exactly the per-department mean costs,
sorted descending by mean (missing means last) and then rounded to two
decimals; on the spec's example it reports ICU 500 before ER 200. -/
theorem claim_C8 :
    (∀ df : DataFrame,
      (avgCostSorted df).Perm (avgCostRaw df)
      ∧ List.Sorted costDesc (avgCostSorted df)
      ∧ avgCostTable df = (avgCostSorted df).map (fun p => (p.1, p.2.map round2)))
    ∧ avgCostTable exC8 = [("ICU", some 500), ("ER", some 200)] := by
  constructor
  · intro df
    exact ⟨List.perm_insertionSort _ _, List.sorted_insertionSort _ _, rfl⟩
  · have hER : deptMeanCost exC8 "ER" = some 200 := by
      have h2 : exC8.rows.filterMap
          (fun r => if r.department = some "ER" then r.cost else none)
            = [100, 300] := rfl
      unfold deptMeanCost
      rw [h2]
      norm_num
    have hICU : deptMeanCost exC8 "ICU" = some 500 := by
      have h2 : exC8.rows.filterMap
          (fun r => if r.department = some "ICU" then r.cost else none)
            = [500] := rfl
      unfold deptMeanCost
      rw [h2]
      norm_num
    have hraw : avgCostRaw exC8 = [("ER", some 200), ("ICU", some 500)] := by
      have hdep : deptsAll exC8 = ["ER", "ICU"] := rfl
      unfold avgCostRaw
      rw [hdep]
      simp [hER, hICU]
    have hsorted : avgCostSorted exC8 = [("ICU", some 500), ("ER", some 200)] := by
      have hc : ¬ costDesc ("ER", (some 200 : Option Rat)) ("ICU", some 500) := by
        norm_num [costDesc, optLe]
      unfold avgCostSorted
      rw [hraw]
      simp only [List.insertionSort, List.orderedInsert]
      rw [if_neg hc]
    have h500 : round2 (500 : Rat) = 500 := by
      norm_num [round2, rhe, rfloor]
    have h200 : round2 (200 : Rat) = 200 := by
      norm_num [round2, rhe, rfloor]
    unfold avgCostTable
    rw [hsorted]
    simp [h500, h200]

/-! ### Claims about the monthly-admissions analyzer -/

/-- C5: the analyzer gets past its guard exactly when the admission-date
column is present with at least one parsed value; when the guard stops it,
the analyzer produces the empty effect list — no section header and no
chart file — and when the guard passes it never produces the empty list. -/
theorem claim_C5 (df : DataFrame) :
    (monthlyGuard df = false
      ↔ df.hasAdmissionDate = true ∧ ∃ r ∈ df.rows, r.admissionDate.isSome = true)
    ∧ (monthlyGuard df = true → monthly_admissions df = .ok [])
    ∧ (monthlyGuard df = false → monthly_admissions df ≠ .ok []) := by
  refine ⟨?_, ?_, ?_⟩
  · unfold monthlyGuard
    constructor
    · intro h
      rcases Bool.or_eq_false_iff.mp h with ⟨ha, hall⟩
      refine ⟨by simpa using ha, ?_⟩
      rcases List.all_eq_false.mp hall with ⟨r, hr, hfa⟩
      refine ⟨r, hr, ?_⟩
      cases hx : r.admissionDate with
      | none => rw [hx] at hfa; simp at hfa
      | some v => simp [hx]
    · rintro ⟨ha, r, hr, hs⟩
      rw [Bool.or_eq_false_iff]
      refine ⟨by simp [ha], ?_⟩
      rw [List.all_eq_false]
      refine ⟨r, hr, ?_⟩
      rcases Option.isSome_iff_exists.mp hs with ⟨v, hv⟩
      simp [hv]
  · intro h
    unfold monthly_admissions
    rw [h]
    rfl
  · intro h
    unfold monthly_admissions
    rw [h]
    cases hp : df.hasPatientId <;> simp [hp]

/-- Witness dataset for C5: the admission-date column exists but every value
failed to parse. -/
def exC5 : DataFrame :=
  ⟨true, false, true, false, false, false, false,
   [⟨some "p1", none, none, none, none, none, none⟩,
    ⟨some "p2", none, none, none, none, none, none⟩]⟩

theorem claim_C5_witness : monthly_admissions exC5 = .ok [] :=
  (claim_C5 exC5).2.1 (by decide)

/-- C9: any count the monthly series reports for a month `m` is exactly the
number of rows whose admission date parsed, falls in `m`, and whose
`Patient_ID` is non-missing — rows with an unparsed date or a missing
`Patient_ID` are never counted. -/
theorem claim_C9 (df : DataFrame) (hrun : monthlyGuard df = false) :
    ∀ m c, (m, c) ∈ monthlySeries df →
      c = df.rows.countP
        (fun r => decide (r.admissionDate.map civilMonth = some m)
          && r.patientId.isSome) := by
  intro m c hmc
  unfold monthlySeries groupByCount at hmc
  rcases List.mem_map.mp hmc with ⟨k, hk, hpair⟩
  have hm : k = m := congrArg Prod.fst hpair
  have hcount := congrArg Prod.snd hpair
  simp only at hcount
  subst hm
  rw [← hcount]
  unfold monthlyPairs
  rw [List.countP_map]
  rfl

/-- Witness dataset for C9: one counted row, one row with a missing
`Patient_ID` in the same month, one row whose date did not parse. -/
def exC9 : DataFrame :=
  ⟨true, false, true, false, false, false, false,
   [⟨some "p1", none, some 0, none, none, none, none⟩,
    ⟨none, none, some 5, none, none, none, none⟩,
    ⟨some "p3", none, none, none, none, none, none⟩]⟩

theorem claim_C9_witness :
    1 = exC9.rows.countP
      (fun r => decide (r.admissionDate.map civilMonth = some ((1970 : Int), (1 : Int)))
        && r.patientId.isSome) :=
  claim_C9 exC9 (by decide) ((1970 : Int), (1 : Int)) 1 (by decide)

/-! ### Claims about the pipeline, exit codes and startup -/

theorem deriveLOS_hasPatientId (df : DataFrame) :
    (deriveLOS df).hasPatientId = df.hasPatientId := by
  unfold deriveLOS
  split_ifs <;> rfl

theorem deriveLOS_hasDepartment (df : DataFrame) :
    (deriveLOS df).hasDepartment = df.hasDepartment := by
  unfold deriveLOS
  split_ifs <;> rfl

theorem deriveLOS_hasCost (df : DataFrame) :
    (deriveLOS df).hasCost = df.hasCost := by
  unfold deriveLOS
  split_ifs <;> rfl

theorem deriveLOS_hasReadmission (df : DataFrame) :
    (deriveLOS df).hasReadmission = df.hasReadmission := by
  unfold deriveLOS
  split_ifs <;> rfl

theorem deriveLOS_hasLOS (df : DataFrame)
    (h : df.hasLengthOfStay = true
      ∨ (df.hasAdmissionDate = true ∧ df.hasDischargeDate = true)) :
    (deriveLOS df).hasLengthOfStay = true := by
  unfold deriveLOS
  split_ifs with h1 h2
  · rfl
  · simp only [Bool.or_eq_true, not_or, Bool.not_eq_true'] at h2
    cases hb : df.hasLengthOfStay with
    | false => exact absurd hb h2.1
    | true => rfl
  · rcases h with h | h
    · exact h
    · exact absurd (by rw [h.1, h.2]; rfl :
        (df.hasAdmissionDate && df.hasDischargeDate) = true) h1

theorem deriveLOS_monthlyGuard (df : DataFrame) :
    monthlyGuard (deriveLOS df) = monthlyGuard df := by
  unfold monthlyGuard deriveLOS
  split_ifs
  · simp only [List.all_map]
    rfl
  · rfl
  · rfl

/-- C3 as amended: the monthly-admissions analyzer is the only one that
guards its optional column and skips silently; any other analyzer that
touches an absent column raises a `KeyError` which propagates out of the
analyzer sequence (shown here for the first such access, the summary
statistics' read of `Length_of_Stay`). -/
theorem claim_C3_amended (df : DataFrame) :
    (monthlyGuard df = true → monthly_admissions df = .ok [])
    ∧ (df.hasLengthOfStay = false →
        run_analyzers df = .error "KeyError: Length_of_Stay") := by
  constructor
  · intro h
    unfold monthly_admissions
    rw [h]
    rfl
  · intro h
    simp [run_analyzers, bind, Except.bind, basic_overview, summary_stats, h]

/-- Counterexample dataset for C3 and C6's second half: a well-formed frame
whose optional date columns are absent and which therefore has no
`Length_of_Stay` either. -/
def exC3 : DataFrame :=
  ⟨true, true, false, false, false, true, true,
   [⟨some "p1", some "ER", none, none, none, some 100, some "No"⟩]⟩

/-- C3 is false on the code: on a dataset whose optional date columns are
absent (hence no derivable `Length_of_Stay`), the summary-statistics
analyzer does not skip; its `KeyError` propagates and crashes the run. -/
theorem claim_C3_cex :
    main_run true "data/hospital_data.csv" exC3
      = .crashed "KeyError: Length_of_Stay" := rfl

theorem claim_C3_amended_witness :
    run_analyzers exC3 = .error "KeyError: Length_of_Stay" :=
  (claim_C3_amended exC3).2 rfl

/-- Counterexample dataset for C6: loadable, but its `Department` column is
absent, so the admissions-by-department analyzer raises. -/
def exC6 : DataFrame :=
  ⟨true, false, false, false, true, true, true,
   [⟨some "p1", none, none, none, some 2, some 100, some "No"⟩]⟩

/-- C6 is false on the code in its second half: an existing, loadable input
need not end with exit status 0 — a missing `Department` column crashes the
process with an uncaught `KeyError` instead. -/
theorem claim_C6_cex :
    main_run true "data/hospital_data.csv" exC6 = .crashed "KeyError: Department"
    ∧ ∀ msgs, main_run true "data/hospital_data.csv" exC6 ≠ .exited 0 msgs := by
  have he : main_run true "data/hospital_data.csv" exC6
      = .crashed "KeyError: Department" := rfl
  refine ⟨he, fun msgs h => ?_⟩
  rw [he] at h
  exact Outcome.noConfusion h

/-- C6 as amended: a missing input file exits with status 1 and a diagnostic
that mentions the expected path; an existing input whose dataset carries the
columns the analyzers reference (`Department`, `Cost`, `Readmission`, a
`Length_of_Stay` that is present or derivable from the two date columns, and
`Patient_ID` whenever the monthly analyzer will run) completes with exit
status 0. -/
theorem claim_C6_amended (path : String) (df : DataFrame)
    (h1 : df.hasDepartment = true) (h2 : df.hasCost = true)
    (h3 : df.hasReadmission = true)
    (h4 : df.hasLengthOfStay = true
      ∨ (df.hasAdmissionDate = true ∧ df.hasDischargeDate = true))
    (h5 : monthlyGuard df = false → df.hasPatientId = true) :
    (main_run false path df = .exited 1 [oopsMsg path, folderMsg]
      ∧ ∃ s, oopsMsg path = s ++ path)
    ∧ main_run true path df = .exited 0 [] := by
  constructor
  · exact ⟨rfl, ⟨"Oops — I can't find the dataset at: ", rfl⟩⟩
  · have hD : (deriveLOS df).hasDepartment = true := by
      rw [deriveLOS_hasDepartment]; exact h1
    have hC : (deriveLOS df).hasCost = true := by
      rw [deriveLOS_hasCost]; exact h2
    have hR : (deriveLOS df).hasReadmission = true := by
      rw [deriveLOS_hasReadmission]; exact h3
    have hL : (deriveLOS df).hasLengthOfStay = true := deriveLOS_hasLOS df h4
    show (match run_analyzers (deriveLOS df) with
      | .ok _ => Outcome.exited 0 []
      | .error e => Outcome.crashed e) = .exited 0 []
    unfold run_analyzers basic_overview summary_stats admissions_by_department
      avg_cost_per_department readmission_rates los_vs_cost monthly_admissions
    rw [hD, hC, hR, hL]
    cases hg : monthlyGuard (deriveLOS df) with
    | true => simp [bind, Except.bind, pure, Except.pure]
    | false =>
        have hp : (deriveLOS df).hasPatientId = true := by
          rw [deriveLOS_hasPatientId]
          exact h5 (by rw [← deriveLOS_monthlyGuard]; exact hg)
        rw [hp]
        simp [bind, Except.bind, pure, Except.pure]

/-- Witness dataset for C6: all referenced columns present and populated. -/
def exC6w : DataFrame :=
  ⟨true, true, true, true, true, true, true,
   [⟨some "p1", some "ER", some 0, some 3, some 3, some 100, some "No"⟩]⟩

theorem claim_C6_amended_witness :
    main_run true "data/hospital_data.csv" exC6w = .exited 0 [] :=
  (claim_C6_amended "data/hospital_data.csv" exC6w rfl rfl rfl (Or.inl rfl)
    (fun _ => rfl)).2

/-- C10: the figures directory is created at startup, before the input file
is checked (the first two program effects, in order), so a run that exits
with status 1 on a missing input still created `reports/figs`. -/
theorem claim_C10 (path : String) (df : DataFrame) :
    ((program_run false path df).1.take 2 = [PEff.mkdirFigs, PEff.checkFile path]
      ∧ (program_run true path df).1.take 2 = [PEff.mkdirFigs, PEff.checkFile path])
    ∧ ∃ msgs, (program_run false path df).2 = .exited 1 msgs :=
  ⟨⟨rfl, rfl⟩, ⟨[oopsMsg path, folderMsg], rfl⟩⟩
